import Mathlib

/-!
Shallow embedding of the loop-control core of the agentic knowledge-graph
constructor: the user-intent elicitation loop (src/src/user_intent.py), the
schema proposal loop and the nested schema critic loop
(src/src/workflow/structured/schema_proposal_loop.py,
src/src/workflow/structured/schema_critic_loop.py), and the shared data model
(src/src/schema.py, src/src/common/schema.py, src/src/message_handling.py).

Pure step bodies are translated directly from the Python source.  External
capabilities (the LLM agent call and the blocking wait for the next human
message) are modelled as environment streams supplying one value per loop
iteration.  The loop driver itself is the external agno engine, which is not
part of this repository; its semantics (run the step sequence, evaluate the
end_condition on the last step output after each full pass, stop when it holds
or when max_iterations passes have completed) follow the spec's description of
that engine.  Python runtime failures (an AttributeError on a missing field of
None or of a model object, a TypeError on a call missing required arguments)
are modelled with Except.
-/

/-- Message (src/src/schema.py): a chat message; sender is the literal
string user, agent or system. -/
structure Message where
  sender : String
  content : String
deriving DecidableEq, Repr

/-- UserGoal (src/src/schema.py): a kind-of-graph phrase plus description. -/
structure UserGoal where
  kind_of_graph : String
  description : String
deriving DecidableEq, Repr

/-- CSVFile (src/src/common/schema.py): name, header row as one
comma-separated string, and data rows each as one comma-separated string. -/
structure CSVFile where
  name : String
  column_names : String
  rows : List String
deriving DecidableEq, Repr

/-- The workflow-wide shared session_state dict, restricted to the two keys
the embedded loops touch: the uploaded files artifact map and the approved
user_goal slot. -/
structure SessionState where
  files : List (String × CSVFile)
  user_goal : Option UserGoal := none
deriving DecidableEq, Repr

/-- Python dict lookup over the files artifact map (keys are unique). -/
def lookupFile : List (String × CSVFile) → String → Option CSVFile
  | [], _ => none
  | (n, f) :: rest, k => if n = k then some f else lookupFile rest k

/-- Embeds get_latest_user_message (src/src/message_handling.py): the awaited
text is wrapped as a message with sender user. -/
def get_latest_user_message (text : String) : Message :=
  { sender := "user", content := text }

namespace UserIntentLoop

/-- UserIntentLoop.AgentOutputSchema (src/src/user_intent.py lines 36-47):
the structured output of the user-intent agent.  proposed_goal defaults to
None and goal_approved to False, so the type itself does not rule out an
approval with a null proposal. -/
structure AgentOutputSchema where
  llm_message : String
  proposed_goal : Option UserGoal := none
  goal_approved : Bool := false
deriving DecidableEq, Repr

/-- UserIntentLoop.LoopState (src/src/user_intent.py lines 50-62): the
loop-private state threaded through the two steps. -/
structure LoopState where
  chat_history : List Message := []
  proposed_goal : Option UserGoal := none
  goal_approved : Bool := false
deriving DecidableEq, Repr

/-- Embeds UserIntentLoop.get_user_input (src/src/user_intent.py lines
100-124).  carry is self.last_iteration_output_content, stepInput is
step_input.input (the raw workflow trigger text), userMsg is the message that
the blocking get_latest_user_message wait would deliver.  The returned Bool
records whether that blocking wait was invoked.  In the carried branch the
source omits goal_approved, so it takes its False default. -/
def get_user_input (carry : Option LoopState) (stepInput : String)
    (userMsg : Message) : LoopState × Bool :=
  match carry with
  | none =>
      ({ chat_history := [{ sender := "user", content := stepInput }] }, false)
  | some state =>
      ({ chat_history := state.chat_history ++ [userMsg],
         proposed_goal := state.proposed_goal }, true)

/-- The deterministic formatting block appended to the agent message when a
proposed goal is present (src/src/user_intent.py lines 144-148). -/
def formatGoalBlock (goal_approved : Bool) (g : UserGoal) : String :=
  "\n\n" ++ "\n            **" ++
    (if goal_approved then "Finalized" else "Proposed") ++
    " User Goal: **\n\n            \tkind of graph: " ++ g.kind_of_graph ++
    "\n\n            \tdescription: " ++ g.description ++ "\n            "

/-- Embeds the session-state write on src/src/user_intent.py line 153: a
plain Python dict assignment, which stores the value unconditionally. -/
def sessionWriteUserGoal (sess : SessionState) (g : UserGoal) : SessionState :=
  { sess with user_goal := some g }

/-- Embeds UserIntentLoop.propose_user_goal (src/src/user_intent.py lines
127-163).  state is the get-user-input step output, response the agent's
structured output, sess the workflow session_state.  On success it returns
the step output (which the source also stores into the carry-over slot), the
updated session_state and the agent message written to the flask session.
When goal_approved is True with proposed_goal None, line 153 evaluates
response.content.proposed_goal.kind_of_graph on None and the step raises,
modelled as an error. -/
def propose_user_goal (state : LoopState) (response : AgentOutputSchema)
    (sess : SessionState) : Except String (LoopState × SessionState × String) :=
  let agent_message :=
    match response.proposed_goal with
    | some g => response.llm_message ++ formatGoalBlock response.goal_approved g
    | none => response.llm_message
  if response.goal_approved then
    match response.proposed_goal with
    | none =>
        .error "AttributeError: NoneType object has no attribute kind_of_graph"
    | some g =>
        .ok ({ chat_history :=
                 state.chat_history ++ [{ sender := "agent", content := agent_message }],
               proposed_goal := response.proposed_goal,
               goal_approved := response.goal_approved },
             sessionWriteUserGoal sess
               { kind_of_graph := g.kind_of_graph, description := g.description },
             agent_message)
  else
    .ok ({ chat_history :=
             state.chat_history ++ [{ sender := "agent", content := agent_message }],
           proposed_goal := response.proposed_goal,
           goal_approved := response.goal_approved },
         sess, agent_message)

/-- Embeds the end_condition lambda of the user-intent Loop
(src/src/user_intent.py line 95): the goal_approved flag of the last step
output's content. -/
def end_condition (lastOutput : LoopState) : Bool :=
  lastOutput.goal_approved

/-- The external inputs of one loop run: the structured agent response and
the next human message text for each iteration index. -/
structure Env where
  agentResponses : Nat → AgentOutputSchema
  userMessages : Nat → String

/-- Record of one completed iteration of the loop, for stating run
invariants: the carry-over value the first step consumed, whether the
blocking human-input wait was invoked, the agent response consumed, whether
the session-state user_goal write on line 153 executed, and the terminal step
output. -/
structure IterTrace where
  consumedCarry : Option LoopState
  waited : Bool
  agentResponse : AgentOutputSchema
  wroteGoal : Bool
  output : LoopState
deriving DecidableEq, Repr

/-- Mutable state of one running UserIntentLoop instance plus its session
state and the trace of completed iterations. -/
structure RunState where
  last_iteration_output_content : Option LoopState
  sess : SessionState
  trace : List IterTrace
deriving DecidableEq, Repr

/-- Outcome of a loop run: approval, budget exhaustion, or a propagated step
exception. -/
inductive RunResult where
  | approved
  | exhausted
  | stepError (msg : String)
deriving DecidableEq, Repr

/-- One full pass of the loop body: step get-user-input followed by step
propose-user-goal, including the carry-over capture on line 161.  The
iteration index used to draw from the environment streams is the number of
completed iterations so far. -/
def runIter (env : Env) (stepInput : String) (rs : RunState) :
    Except String (LoopState × RunState) :=
  let k := rs.trace.length
  let s1w := get_user_input rs.last_iteration_output_content stepInput
    (get_latest_user_message (env.userMessages k))
  let response := env.agentResponses k
  match propose_user_goal s1w.1 response rs.sess with
  | .error e => .error e
  | .ok (out, sess', _msg) =>
      .ok (out,
        { last_iteration_output_content := some out,
          sess := sess',
          trace := rs.trace ++
            [{ consumedCarry := rs.last_iteration_output_content,
               waited := s1w.2,
               agentResponse := response,
               wroteGoal := response.goal_approved,
               output := out }] })

/-- Modelled from the spec: the external agno Loop driver (spec section 4.2),
which is not part of this repository.  It executes the step sequence,
evaluates end_condition on the last step output after each full pass, stops
with approval when it holds, and stops exhausted when the iteration budget
runs out; a step exception aborts the run. -/
def runLoop (env : Env) (stepInput : String) :
    Nat → RunState → RunResult × RunState
  | 0, rs => (RunResult.exhausted, rs)
  | fuel + 1, rs =>
      match runIter env stepInput rs with
      | .error e => (RunResult.stepError e, rs)
      | .ok (out, rs') =>
          if end_condition out then (RunResult.approved, rs')
          else runLoop env stepInput fuel rs'

/-- A complete run of one fresh UserIntentLoop instance: the carry-over slot
starts absent (the None default on src/src/user_intent.py line 33), the trace
empty, and the budget is max_iterations. -/
def run (env : Env) (stepInput : String) (max_iterations : Nat)
    (sess0 : SessionState) : RunResult × RunState :=
  runLoop env stepInput max_iterations
    { last_iteration_output_content := none, sess := sess0, trace := [] }

end UserIntentLoop

/-- Python string join over a string operand: join iterates the characters of
the string, so each character becomes one joined part. -/
def pyJoinChars (sep : String) (s : String) : String :=
  String.intercalate sep (s.data.map (fun c => String.singleton c))

/-- A Python runtime value appearing as a field of a loop-state model object,
for modelling dynamic (duck-typed) attribute access. -/
inductive PyVal where
  | vStr (s : String)
  | vStrList (l : List String)
deriving DecidableEq, Repr

/-- Python truthiness of a field value, as used when a retrieved attribute is
consumed as the boolean result of an end_condition lambda. -/
def PyVal.truthy : PyVal → Bool
  | PyVal.vStr s => s ≠ ""
  | PyVal.vStrList l => ¬l.isEmpty

/-- Python call semantics for a constructor: a call that supplies arguments
for the parameter names in provided raises TypeError when a parameter without
a default is missing. -/
def pyCallCheck (provided required : List String) : Except String Unit :=
  if required.all (fun p => provided.contains p) then Except.ok ()
  else Except.error "TypeError: __init__ missing required positional arguments"

namespace SchemaCriticLoop

/-- SchemaCriticLoop.LoopState (src/src/workflow/structured/
schema_critic_loop.py lines 48-62): filenames, proposed entity and
relationship types, and the critic's feedback string.  Note that it declares
no field named approved. -/
structure LoopState where
  filenames : List String := []
  entity_types : List String := []
  relationship_types : List String := []
  critic_feedback : String := ""
deriving DecidableEq, Repr

/-- Dynamic attribute lookup on a SchemaCriticLoop.LoopState value: exactly
the four fields declared on lines 59-62 resolve; any other attribute name is
absent, which in Python raises AttributeError at the access site. -/
def LoopState.lookupAttr (s : LoopState) : String → Option PyVal
  | "filenames" => some (PyVal.vStrList s.filenames)
  | "entity_types" => some (PyVal.vStrList s.entity_types)
  | "relationship_types" => some (PyVal.vStrList s.relationship_types)
  | "critic_feedback" => some (PyVal.vStr s.critic_feedback)
  | _ => none

/-- Embeds the end_condition lambda of the schema-critic Loop
(src/src/workflow/structured/schema_critic_loop.py line 156):
step_outputs[-1].critic_feedback == "APPROVED", an access on the last
inner-loop state content. -/
def end_condition (lastContent : LoopState) : Bool :=
  lastContent.critic_feedback = "APPROVED"

/-- Embeds SchemaCriticLoop.peek_file (src/src/workflow/structured/
schema_critic_loop.py lines 197-219): look the filename up in the files
artifact map of session_state; on a KeyError return an error string naming
the missing filename instead of raising; otherwise return the joined header
line followed by the first eleven data rows. -/
def peek_file (session_state : SessionState) (filename : String) :
    Sum String (List String) :=
  match lookupFile session_state.files filename with
  | none => Sum.inl ("ERROR: No file with name " ++ filename ++ " found.")
  | some csv_file =>
      Sum.inr (pyJoinChars ", " csv_file.column_names ::
        (csv_file.rows.take 11).map (fun row => pyJoinChars ", " row))

/-- The parameters of SchemaCriticLoop.__init__ without defaults
(src/src/workflow/structured/schema_critic_loop.py lines 65-68): files and
user_goal; max_iterations has a default. -/
def initRequiredParams : List String := ["files", "user_goal"]

end SchemaCriticLoop

namespace SchemaProposalLoop

/-- SchemaProposalLoop.LoopState (src/src/workflow/structured/
schema_proposal_loop.py lines 55-69). -/
structure LoopState where
  chat_history : List Message := []
  entity_types : List String := []
  relationship_types : List String := []
  approved : Bool := false
deriving DecidableEq, Repr

/-- Embeds SchemaProposalLoop.get_user_input (src/src/workflow/structured/
schema_proposal_loop.py lines 88-118).  carry is
self.last_iteration_output_content, content is step_input.content (bound to
the local state on line 97 and only used in the non-first branch), stepInput
is step_input.input, and userMsg the awaited message.  The Bool records
whether the blocking get_latest_user_message wait was invoked; in the
carried branch the source omits approved, so it takes its False default. -/
def get_user_input (carry : Option LoopState) (content : LoopState)
    (stepInput : String) (userMsg : Message) : LoopState × Bool :=
  match carry with
  | none =>
      ({ chat_history := [{ sender := "user", content := stepInput }] }, false)
  | some _ =>
      ({ chat_history := content.chat_history ++ [userMsg],
         entity_types := content.entity_types,
         relationship_types := content.relationship_types }, true)

/-- Embeds the end_condition lambda of the schema-proposal Loop
(src/src/workflow/structured/schema_proposal_loop.py line 84):
step_outputs[-1].content.approved.  The last step of this loop is the nested
schema-critic loop, so the content reaching the lambda is a
SchemaCriticLoop.LoopState; the approved attribute is accessed dynamically
and Python raises AttributeError when it is absent. -/
def end_condition (lastContent : SchemaCriticLoop.LoopState) :
    Except String Bool :=
  match lastContent.lookupAttr "approved" with
  | some v => Except.ok (PyVal.truthy v)
  | none =>
      Except.error "AttributeError: LoopState object has no attribute approved"

/-- Embeds SchemaProposalLoop.__init__ (src/src/workflow/structured/
schema_proposal_loop.py lines 72-85): building the Loop's step list evaluates
SchemaCriticLoop().get_loop(), a call that supplies no arguments to
SchemaCriticLoop.__init__, whose files and user_goal parameters have no
default.  The result records whether construction succeeds. -/
def init (files : List CSVFile) (user_goal : UserGoal)
    (max_iterations : Nat) : Except String Unit :=
  match pyCallCheck [] SchemaCriticLoop.initRequiredParams with
  | Except.error e => Except.error e
  | Except.ok _ => Except.ok ()

end SchemaProposalLoop

namespace UserIntentLoop

/-- The trace is correctly threaded starting from carry value c: each entry
consumed exactly the carry-over produced before it, and each entry's output
becomes the next carry. -/
def Chained : Option LoopState → List IterTrace → Prop
  | _, [] => True
  | c, t :: ts => t.consumedCarry = c ∧ Chained (some t.output) ts

/-- The carry-over value after a trace, starting from carry value c. -/
def finalCarry : Option LoopState → List IterTrace → Option LoopState
  | c, [] => c
  | _, t :: ts => finalCarry (some t.output) ts

end UserIntentLoop

/-- Concrete agent response that never approves, for evaluating runs. -/
def witRespNo : UserIntentLoop.AgentOutputSchema := { llm_message := "m" }

/-- Concrete environment whose agent never approves. -/
def witEnvNo : UserIntentLoop.Env :=
  { agentResponses := fun _ => witRespNo, userMessages := fun _ => "u" }

/-- Concrete initial session state with no artifacts and no approved goal. -/
def witSess : SessionState := { files := [] }

/-- A two-iteration run of the user-intent loop under witEnvNo. -/
def witRun : UserIntentLoop.RunResult × UserIntentLoop.RunState :=
  UserIntentLoop.run witEnvNo "hi" 2 witSess

/-- Placeholder trace entry used as a getD default. -/
def witDummy : UserIntentLoop.IterTrace :=
  { consumedCarry := none, waited := false, agentResponse := witRespNo,
    wroteGoal := false, output := {} }

/-- First trace entry of witRun. -/
def witT0 : UserIntentLoop.IterTrace := witRun.2.trace.getD 0 witDummy

/-- Second trace entry of witRun. -/
def witT1 : UserIntentLoop.IterTrace := witRun.2.trace.getD 1 witDummy

/-- The carried LoopState consumed by the second iteration of witRun. -/
def witS1 : UserIntentLoop.LoopState := witT1.consumedCarry.getD {}

/-- Concrete approving agent response carrying a non-null proposal. -/
def witRespYes : UserIntentLoop.AgentOutputSchema :=
  { llm_message := "ok",
    proposed_goal := some { kind_of_graph := "social network", description := "d" },
    goal_approved := true }

/-- Result triple of the terminal step on the approving response. -/
def witC4 : UserIntentLoop.LoopState × SessionState × String :=
  (UserIntentLoop.propose_user_goal {} witRespYes witSess).toOption.getD
    ({}, witSess, "")

namespace UserIntentLoop

theorem propose_user_goal_spec (state : LoopState) (r : AgentOutputSchema)
    (sess : SessionState) (out : LoopState) (sess' : SessionState) (msg : String)
    (h : propose_user_goal state r sess = Except.ok (out, sess', msg)) :
    out.goal_approved = r.goal_approved ∧ out.proposed_goal = r.proposed_goal ∧
      (r.goal_approved = false → sess' = sess) ∧
      (r.goal_approved = true → ∃ g, r.proposed_goal = some g ∧
        sess' = sessionWriteUserGoal sess
          { kind_of_graph := g.kind_of_graph, description := g.description }) := by
  cases hr : r.goal_approved
  · simp only [propose_user_goal, hr, if_false, Bool.false_eq_true,
      Except.ok.injEq, Prod.mk.injEq] at h
    obtain ⟨h1, h2, h3⟩ := h
    subst h1
    subst h2
    simp
  · cases hg : r.proposed_goal with
    | none =>
        simp [propose_user_goal, hr, hg] at h
    | some g =>
        simp only [propose_user_goal, hr, hg, if_true, Except.ok.injEq,
          Prod.mk.injEq] at h
        obtain ⟨h1, h2, h3⟩ := h
        subst h1
        subst h2
        simp [hg]

theorem runIter_spec (env : Env) (inp : String) (rs : RunState)
    (out : LoopState) (rs' : RunState)
    (h : runIter env inp rs = Except.ok (out, rs')) :
    ∃ t : IterTrace,
      rs'.trace = rs.trace ++ [t] ∧
      t.consumedCarry = rs.last_iteration_output_content ∧
      t.output = out ∧
      t.wroteGoal = out.goal_approved ∧
      rs'.last_iteration_output_content = some out ∧
      (out.goal_approved = false → rs'.sess = rs.sess) := by
  simp only [runIter] at h
  cases hp : propose_user_goal
      (get_user_input rs.last_iteration_output_content inp
        (get_latest_user_message (env.userMessages rs.trace.length))).1
      (env.agentResponses rs.trace.length) rs.sess with
  | error e => rw [hp] at h; cases h
  | ok triple =>
      obtain ⟨o, sess1, msg1⟩ := triple
      rw [hp] at h
      simp only [Except.ok.injEq, Prod.mk.injEq] at h
      obtain ⟨h1, h2⟩ := h
      subst h1
      obtain ⟨hga, _hpg, hsf, _hst⟩ := propose_user_goal_spec _ _ _ _ _ _ hp
      refine ⟨{ consumedCarry := rs.last_iteration_output_content,
                waited := (get_user_input rs.last_iteration_output_content inp
                  (get_latest_user_message (env.userMessages rs.trace.length))).2,
                agentResponse := env.agentResponses rs.trace.length,
                wroteGoal := (env.agentResponses rs.trace.length).goal_approved,
                output := o }, ?_, rfl, rfl, ?_, ?_, ?_⟩
      · rw [← h2]
      · simp [hga]
      · rw [← h2]
      · intro hfa
        rw [← h2]
        exact hsf (by rw [← hga, hfa])

end UserIntentLoop

namespace UserIntentLoop

theorem runLoop_succ (env : Env) (inp : String) (n : Nat) (rs : RunState) :
    runLoop env inp (n+1) rs =
      match runIter env inp rs with
      | Except.error e => (RunResult.stepError e, rs)
      | Except.ok (out, rs') =>
          if end_condition out then (RunResult.approved, rs')
          else runLoop env inp n rs' := rfl

theorem runLoop_succ_error (env : Env) (inp : String) (n : Nat) (rs : RunState)
    (e : String) (h : runIter env inp rs = Except.error e) :
    runLoop env inp (n+1) rs = (RunResult.stepError e, rs) := by
  rw [runLoop_succ, h]

theorem runLoop_succ_approved (env : Env) (inp : String) (n : Nat)
    (rs : RunState) (out : LoopState) (rs' : RunState)
    (h : runIter env inp rs = Except.ok (out, rs'))
    (hc : end_condition out = true) :
    runLoop env inp (n+1) rs = (RunResult.approved, rs') := by
  rw [runLoop_succ, h]
  simp [hc]

theorem runLoop_succ_continue (env : Env) (inp : String) (n : Nat)
    (rs : RunState) (out : LoopState) (rs' : RunState)
    (h : runIter env inp rs = Except.ok (out, rs'))
    (hc : end_condition out = false) :
    runLoop env inp (n+1) rs = runLoop env inp n rs' := by
  rw [runLoop_succ, h]
  simp [hc]

theorem runLoop_cases (env : Env) (inp : String) (n : Nat) (rs : RunState) :
    (∃ e, runLoop env inp (n+1) rs = (RunResult.stepError e, rs)) ∨
    (∃ out rs', runIter env inp rs = Except.ok (out, rs') ∧
      ((end_condition out = true ∧
          runLoop env inp (n+1) rs = (RunResult.approved, rs')) ∨
       (end_condition out = false ∧
          runLoop env inp (n+1) rs = runLoop env inp n rs'))) := by
  cases hp : runIter env inp rs with
  | error e => exact Or.inl ⟨e, runLoop_succ_error env inp n rs e hp⟩
  | ok p =>
      obtain ⟨out, rs'⟩ := p
      cases hc : end_condition out with
      | false =>
          exact Or.inr ⟨out, rs', rfl,
            Or.inr ⟨hc, runLoop_succ_continue env inp n rs out rs' hp hc⟩⟩
      | true =>
          exact Or.inr ⟨out, rs', rfl,
            Or.inl ⟨hc, runLoop_succ_approved env inp n rs out rs' hp hc⟩⟩

theorem runLoop_length_le (env : Env) (inp : String) :
    ∀ (fuel : Nat) (rs : RunState),
      ((runLoop env inp fuel rs).2).trace.length ≤ rs.trace.length + fuel := by
  intro fuel
  induction fuel with
  | zero => intro rs; simp [runLoop]
  | succ n ih =>
      intro rs
      rcases runLoop_cases env inp n rs with ⟨e, h⟩ | ⟨out, rs', hp, hrest⟩
      · rw [h]; dsimp only; omega
      · obtain ⟨t, htr, -, -, -, -, -⟩ := runIter_spec env inp rs out rs' hp
        have hlen : rs'.trace.length = rs.trace.length + 1 := by
          rw [htr]; simp
        rcases hrest with ⟨-, h⟩ | ⟨-, h⟩
        · rw [h]; dsimp only; omega
        · rw [h]
          have := ih rs'
          omega

end UserIntentLoop

namespace UserIntentLoop

theorem runLoop_dropLast_unapproved (env : Env) (inp : String) :
    ∀ (fuel : Nat) (rs : RunState),
      (∀ t ∈ rs.trace, t.output.goal_approved = false) →
      ∀ t ∈ ((runLoop env inp fuel rs).2).trace.dropLast,
        t.output.goal_approved = false := by
  intro fuel
  induction fuel with
  | zero =>
      intro rs h t ht
      exact h t (List.dropLast_subset _ ht)
  | succ n ih =>
      intro rs h
      rcases runLoop_cases env inp n rs with ⟨e, heq⟩ | ⟨out, rs', hp, hrest⟩
      · rw [heq]
        intro t ht
        exact h t (List.dropLast_subset _ ht)
      · obtain ⟨tn, htr, -, hto, -, -, -⟩ := runIter_spec env inp rs out rs' hp
        rcases hrest with ⟨-, heq⟩ | ⟨hc, heq⟩
        · rw [heq]
          intro t ht
          dsimp only at ht
          rw [htr, List.dropLast_concat] at ht
          exact h t ht
        · rw [heq]
          apply ih rs'
          intro t ht
          rw [htr] at ht
          rcases List.mem_append.1 ht with h1 | h1
          · exact h t h1
          · rw [List.mem_singleton.1 h1, hto]
            exact hc

theorem runLoop_approved_last (env : Env) (inp : String) :
    ∀ (fuel : Nat) (rs rs' : RunState),
      runLoop env inp fuel rs = (RunResult.approved, rs') →
      ∃ t, rs'.trace.getLast? = some t ∧ t.output.goal_approved = true := by
  intro fuel
  induction fuel with
  | zero =>
      intro rs rs' h
      cases h
  | succ n ih =>
      intro rs rs' h
      rcases runLoop_cases env inp n rs with ⟨e, heq⟩ | ⟨out, rs1, hp, hrest⟩
      · rw [heq] at h; cases h
      · obtain ⟨tn, htr, -, hto, -, -, -⟩ := runIter_spec env inp rs out rs1 hp
        rcases hrest with ⟨hc, heq⟩ | ⟨-, heq⟩
        · rw [heq] at h
          obtain ⟨-, h2⟩ := Prod.mk.injEq .. ▸ h
          cases h
          refine ⟨tn, ?_, ?_⟩
          · rw [htr]
            exact List.getLast?_concat _
          · rw [hto]
            exact hc
        · rw [heq] at h
          exact ih rs1 rs' h

theorem runLoop_exhausted_spec (env : Env) (inp : String) :
    ∀ (fuel : Nat) (rs rs' : RunState),
      (∀ t ∈ rs.trace, t.output.goal_approved = false) →
      runLoop env inp fuel rs = (RunResult.exhausted, rs') →
      rs'.trace.length = rs.trace.length + fuel ∧
      rs'.sess = rs.sess ∧
      ∀ t ∈ rs'.trace, t.output.goal_approved = false := by
  intro fuel
  induction fuel with
  | zero =>
      intro rs rs' hall h
      obtain ⟨-, h2⟩ := Prod.mk.injEq .. ▸ h
      cases h
      exact ⟨rfl, rfl, hall⟩
  | succ n ih =>
      intro rs rs' hall h
      rcases runLoop_cases env inp n rs with ⟨e, heq⟩ | ⟨out, rs1, hp, hrest⟩
      · rw [heq] at h; cases h
      · obtain ⟨tn, htr, -, hto, -, -, hsess⟩ := runIter_spec env inp rs out rs1 hp
        rcases hrest with ⟨-, heq⟩ | ⟨hc, heq⟩
        · rw [heq] at h; cases h
        · rw [heq] at h
          have hfa : out.goal_approved = false := hc
          have hall1 : ∀ t ∈ rs1.trace, t.output.goal_approved = false := by
            intro t ht
            rw [htr] at ht
            rcases List.mem_append.1 ht with h1 | h1
            · exact hall t h1
            · rw [List.mem_singleton.1 h1, hto]
              exact hfa
          obtain ⟨l1, l2, l3⟩ := ih rs1 rs' hall1 h
          have hlen : rs1.trace.length = rs.trace.length + 1 := by
            rw [htr]; simp
          exact ⟨by omega, by rw [l2, hsess hfa], l3⟩

end UserIntentLoop

namespace UserIntentLoop

theorem chained_concat : ∀ (l : List IterTrace) (c : Option LoopState)
    (x : IterTrace), Chained c l → x.consumedCarry = finalCarry c l →
    Chained c (l ++ [x]) := by
  intro l
  induction l with
  | nil => intro c x _ hx; exact ⟨hx, trivial⟩
  | cons t ts ih =>
      intro c x hch hx
      exact ⟨hch.1, ih (some t.output) x hch.2 hx⟩

theorem finalCarry_concat : ∀ (l : List IterTrace) (c : Option LoopState)
    (x : IterTrace), finalCarry c (l ++ [x]) = some x.output := by
  intro l
  induction l with
  | nil => intro c x; rfl
  | cons t ts ih => intro c x; exact ih (some t.output) x

theorem runIter_chain (env : Env) (inp : String) (rs : RunState)
    (out : LoopState) (rs' : RunState)
    (h : runIter env inp rs = Except.ok (out, rs'))
    (hch : Chained none rs.trace)
    (hf : rs.last_iteration_output_content = finalCarry none rs.trace) :
    Chained none rs'.trace ∧
      rs'.last_iteration_output_content = finalCarry none rs'.trace := by
  obtain ⟨t, htr, hcc, hto, -, hlast, -⟩ := runIter_spec env inp rs out rs' h
  constructor
  · rw [htr]
    exact chained_concat _ _ _ hch (by rw [hcc, hf])
  · rw [htr, hlast, finalCarry_concat, hto]

theorem runLoop_chain (env : Env) (inp : String) :
    ∀ (fuel : Nat) (rs : RunState),
      Chained none rs.trace →
      rs.last_iteration_output_content = finalCarry none rs.trace →
      Chained none ((runLoop env inp fuel rs).2).trace := by
  intro fuel
  induction fuel with
  | zero => intro rs hch hf; exact hch
  | succ n ih =>
      intro rs hch hf
      rcases runLoop_cases env inp n rs with ⟨e, heq⟩ | ⟨out, rs', hp, hrest⟩
      · rw [heq]; exact hch
      · obtain ⟨hch', hf'⟩ := runIter_chain env inp rs out rs' hp hch hf
        rcases hrest with ⟨-, heq⟩ | ⟨-, heq⟩
        · rw [heq]; exact hch'
        · rw [heq]; exact ih rs' hch' hf'

theorem chained_get_zero : ∀ (l : List IterTrace) (c : Option LoopState)
    (t : IterTrace), Chained c l → l.get? 0 = some t → t.consumedCarry = c := by
  intro l c t hch h
  cases l with
  | nil => cases h
  | cons x xs =>
      simp only [List.get?_cons_zero, Option.some.injEq] at h
      rw [← h]
      exact hch.1

theorem chained_get_consec : ∀ (l : List IterTrace) (c : Option LoopState)
    (i : Nat) (a b : IterTrace), Chained c l →
    l.get? i = some a → l.get? (i+1) = some b →
    b.consumedCarry = some a.output := by
  intro l
  induction l with
  | nil => intro c i a b _ ha _; cases ha
  | cons t ts ih =>
      intro c i a b hch ha hb
      cases i with
      | zero =>
          simp only [List.get?_cons_zero, Option.some.injEq] at ha
          rw [← ha]
          exact chained_get_zero ts (some t.output) b hch.2
            (by simpa using hb)
      | succ j =>
          exact ih (some t.output) j a b hch.2 (by simpa using ha)
            (by simpa using hb)

theorem runLoop_carry_unapproved (env : Env) (inp : String) :
    ∀ (fuel : Nat) (rs : RunState),
      (∀ s, rs.last_iteration_output_content = some s →
        s.goal_approved = false) →
      (∀ t ∈ rs.trace, ∀ s, t.consumedCarry = some s →
        s.goal_approved = false) →
      ∀ t ∈ ((runLoop env inp fuel rs).2).trace, ∀ s,
        t.consumedCarry = some s → s.goal_approved = false := by
  intro fuel
  induction fuel with
  | zero => intro rs _ htr; exact htr
  | succ n ih =>
      intro rs hcar htr
      rcases runLoop_cases env inp n rs with ⟨e, heq⟩ | ⟨out, rs', hp, hrest⟩
      · rw [heq]; exact htr
      · obtain ⟨tn, htrace, hcc, hto, -, hlast, -⟩ :=
          runIter_spec env inp rs out rs' hp
        have htr' : ∀ t ∈ rs'.trace, ∀ s, t.consumedCarry = some s →
            s.goal_approved = false := by
          intro t ht s hs
          rw [htrace] at ht
          rcases List.mem_append.1 ht with h1 | h1
          · exact htr t h1 s hs
          · rw [List.mem_singleton.1 h1] at hs
            rw [hcc] at hs
            exact hcar s hs
        rcases hrest with ⟨-, heq⟩ | ⟨hc, heq⟩
        · rw [heq]; exact htr'
        · rw [heq]
          apply ih rs' _ htr'
          intro s hs
          rw [hlast, Option.some.injEq] at hs
          rw [← hs]
          exact hc

theorem runLoop_wrote_eq_output (env : Env) (inp : String) :
    ∀ (fuel : Nat) (rs : RunState),
      (∀ t ∈ rs.trace, t.wroteGoal = t.output.goal_approved) →
      ∀ t ∈ ((runLoop env inp fuel rs).2).trace,
        t.wroteGoal = t.output.goal_approved := by
  intro fuel
  induction fuel with
  | zero => intro rs h; exact h
  | succ n ih =>
      intro rs h
      rcases runLoop_cases env inp n rs with ⟨e, heq⟩ | ⟨out, rs', hp, hrest⟩
      · rw [heq]; exact h
      · obtain ⟨tn, htrace, -, hto, hwg, -, -⟩ :=
          runIter_spec env inp rs out rs' hp
        have h' : ∀ t ∈ rs'.trace, t.wroteGoal = t.output.goal_approved := by
          intro t ht
          rw [htrace] at ht
          rcases List.mem_append.1 ht with h1 | h1
          · exact h t h1
          · rw [List.mem_singleton.1 h1, hwg, hto]
        rcases hrest with ⟨-, heq⟩ | ⟨-, heq⟩
        · rw [heq]; exact h'
        · rw [heq]; exact ih rs' h'

theorem filter_wrote_le_one : ∀ (l : List IterTrace),
    (∀ t ∈ l, t.wroteGoal = t.output.goal_approved) →
    (∀ t ∈ l.dropLast, t.output.goal_approved = false) →
    (l.filter (fun t => t.wroteGoal)).length ≤ 1 := by
  intro l
  induction l with
  | nil => intro _ _; simp
  | cons t ts ih =>
      intro hwf hdrop
      cases ts with
      | nil =>
          simp only [List.filter]
          cases t.wroteGoal <;> simp
      | cons u us =>
          have ht : t.output.goal_approved = false :=
            hdrop t (by rw [List.dropLast_cons₂]; exact List.mem_cons_self _ _)
          have htw : t.wroteGoal = false := by
            rw [hwf t (List.mem_cons_self _ _), ht]
          simp only [List.filter, htw]
          exact ih (fun x hx => hwf x (List.mem_cons_of_mem _ hx))
            (fun x hx => hdrop x
              (by rw [List.dropLast_cons₂]; exact List.mem_cons_of_mem _ hx))

end UserIntentLoop

/-- C1: for one running UserIntentLoop instance and every iteration k > 1, the
LoopState consumed by the first step (get-user-input) equals exactly the
LoopState that the terminal step (propose-user-goal) of iteration k-1 stored in
the carry-over slot last_iteration_output_content — consecutive trace entries
satisfy consumed = previous output, no other value is consumed, and the first
iteration consumes no carried value. -/
theorem userIntentLoop_carry_over_exact (env : UserIntentLoop.Env)
    (inp : String) (m : Nat) (s0 : SessionState) :
    (∀ t, ((UserIntentLoop.run env inp m s0).2).trace.get? 0 = some t →
      t.consumedCarry = none) ∧
    (∀ i a b, ((UserIntentLoop.run env inp m s0).2).trace.get? i = some a →
      ((UserIntentLoop.run env inp m s0).2).trace.get? (i+1) = some b →
      b.consumedCarry = some a.output) := by
  have hch : UserIntentLoop.Chained none
      ((UserIntentLoop.run env inp m s0).2).trace :=
    UserIntentLoop.runLoop_chain env inp m
      { last_iteration_output_content := none, sess := s0, trace := [] }
      (by trivial) rfl
  exact ⟨fun t ht => UserIntentLoop.chained_get_zero _ _ _ hch ht,
    fun i a b ha hb => UserIntentLoop.chained_get_consec _ _ i a b hch ha hb⟩

theorem userIntentLoop_carry_over_exact_witness :
    witRun.2.trace.get? 0 = some witT0 ∧
    witRun.2.trace.get? 1 = some witT1 ∧
    witT1.consumedCarry = some witT0.output := by
  refine ⟨by decide, by decide, ?_⟩
  exact (userIntentLoop_carry_over_exact witEnvNo "hi" 2 witSess).2 0 witT0
    witT1 (by decide) (by decide)

/-- C2: the user-intent loop runs at most max_iterations full passes and always
terminates; it stops tagged approved exactly when a pass ends with the
end_condition (the last output's goal_approved flag) true — every non-final
pass has it false — and stops tagged exhausted when max_iterations passes
complete without it holding (then all passes have it false). -/
theorem userIntentLoop_bounded_termination (env : UserIntentLoop.Env)
    (inp : String) (m : Nat) (s0 : SessionState) :
    ((UserIntentLoop.run env inp m s0).2).trace.length ≤ m ∧
    ((UserIntentLoop.run env inp m s0).1 = UserIntentLoop.RunResult.approved →
      ∃ t, ((UserIntentLoop.run env inp m s0).2).trace.getLast? = some t ∧
        t.output.goal_approved = true) ∧
    (∀ t ∈ ((UserIntentLoop.run env inp m s0).2).trace.dropLast,
      t.output.goal_approved = false) ∧
    ((UserIntentLoop.run env inp m s0).1 = UserIntentLoop.RunResult.exhausted →
      ((UserIntentLoop.run env inp m s0).2).trace.length = m ∧
      ∀ t ∈ ((UserIntentLoop.run env inp m s0).2).trace,
        t.output.goal_approved = false) := by
  refine ⟨?_, ?_, ?_, ?_⟩
  · have := UserIntentLoop.runLoop_length_le env inp m
      { last_iteration_output_content := none, sess := s0, trace := [] }
    simpa using this
  · intro h
    have hrun : UserIntentLoop.run env inp m s0 =
        (UserIntentLoop.RunResult.approved,
          (UserIntentLoop.run env inp m s0).2) := by
      rw [← h]
    exact UserIntentLoop.runLoop_approved_last env inp m
      { last_iteration_output_content := none, sess := s0, trace := [] } _ hrun
  · exact UserIntentLoop.runLoop_dropLast_unapproved env inp m
      { last_iteration_output_content := none, sess := s0, trace := [] }
      (by simp)
  · intro h
    have hrun : UserIntentLoop.run env inp m s0 =
        (UserIntentLoop.RunResult.exhausted,
          (UserIntentLoop.run env inp m s0).2) := by
      rw [← h]
    obtain ⟨l1, -, l3⟩ := UserIntentLoop.runLoop_exhausted_spec env inp m
      { last_iteration_output_content := none, sess := s0, trace := [] } _
      (by simp) hrun
    exact ⟨by simpa using l1, l3⟩

theorem userIntentLoop_bounded_termination_witness :
    ((UserIntentLoop.run witEnvNo "hi" 2 witSess).2).trace.length = 2 ∧
    ∀ t ∈ ((UserIntentLoop.run witEnvNo "hi" 2 witSess).2).trace,
      t.output.goal_approved = false :=
  (userIntentLoop_bounded_termination witEnvNo "hi" 2 witSess).2.2.2
    (by decide)

/-- C3 counterexample: with user_goal already set, a second write of a
different value through the line-153 assignment silently overwrites the
existing value — there is no already-set error and the old value is not
preserved, refuting the claimed set-once failure semantics. -/
theorem sessionWrite_second_write_overwrites :
    (UserIntentLoop.sessionWriteUserGoal
        { files := [],
          user_goal := some { kind_of_graph := "a", description := "b" } }
        { kind_of_graph := "c", description := "d" }).user_goal =
      some { kind_of_graph := "c", description := "d" } ∧
    ({ kind_of_graph := "c", description := "d" } : UserGoal) ≠
      { kind_of_graph := "a", description := "b" } := by
  exact ⟨rfl, by decide⟩

/-- C3 (amended): the write to the approved-goal slot is an unconditional
dict assignment that overwrites any existing value without error; the slot is
nevertheless written at most once per loop run, because the run terminates on
the very iteration whose agent response triggers the write. -/
theorem sessionWrite_overwrite_and_at_most_once (s : SessionState)
    (g : UserGoal) (env : UserIntentLoop.Env) (inp : String) (m : Nat)
    (s0 : SessionState) :
    (UserIntentLoop.sessionWriteUserGoal s g).user_goal = some g ∧
    (((UserIntentLoop.run env inp m s0).2).trace.filter
        (fun t => t.wroteGoal)).length ≤ 1 := by
  refine ⟨rfl, ?_⟩
  apply UserIntentLoop.filter_wrote_le_one
  · exact UserIntentLoop.runLoop_wrote_eq_output env inp m
      { last_iteration_output_content := none, sess := s0, trace := [] }
      (by simp)
  · exact UserIntentLoop.runLoop_dropLast_unapproved env inp m
      { last_iteration_output_content := none, sess := s0, trace := [] }
      (by simp)

/-- C4 counterexample: an agent output with goal_approved true and a null
proposal is processed by propose-user-goal, and the commit on line 153
dereferences the absent proposal — the step raises an AttributeError rather
than the claimed impossibility of this situation. -/
theorem propose_user_goal_null_approval_crash :
    UserIntentLoop.propose_user_goal {}
        { llm_message := "ok", proposed_goal := none, goal_approved := true }
        { files := [] } =
      Except.error
        "AttributeError: NoneType object has no attribute kind_of_graph" :=
  rfl

/-- C4 (amended): an approved agent output with a null proposal makes the
terminal step fail by dereferencing the absent proposal (aborting the run
before any commit); whenever the step instead completes with goal_approved
true in its output, the proposal is non-null and the committed session value
is built from it. -/
theorem propose_user_goal_approval_guarded (state : UserIntentLoop.LoopState)
    (r : UserIntentLoop.AgentOutputSchema) (sess : SessionState) :
    (r.goal_approved = true → r.proposed_goal = none →
      UserIntentLoop.propose_user_goal state r sess =
        Except.error
          "AttributeError: NoneType object has no attribute kind_of_graph") ∧
    (∀ out sess' msg,
      UserIntentLoop.propose_user_goal state r sess =
        Except.ok (out, sess', msg) →
      out.goal_approved = true →
      ∃ g, r.proposed_goal = some g ∧ out.proposed_goal = some g ∧
        sess'.user_goal = some { kind_of_graph := g.kind_of_graph,
                                 description := g.description }) := by
  constructor
  · intro hr hg
    simp [UserIntentLoop.propose_user_goal, hr, hg]
  · intro out sess' msg h happ
    obtain ⟨hga, hpg, -, hst⟩ :=
      UserIntentLoop.propose_user_goal_spec state r sess out sess' msg h
    have hr : r.goal_approved = true := by rw [← hga, happ]
    obtain ⟨g, hg1, hg2⟩ := hst hr
    refine ⟨g, hg1, by rw [hpg, hg1], ?_⟩
    rw [hg2]
    rfl

theorem propose_user_goal_approval_guarded_witness :
    UserIntentLoop.propose_user_goal {}
        { llm_message := "ok", proposed_goal := none, goal_approved := true }
        witSess =
      Except.error
        "AttributeError: NoneType object has no attribute kind_of_graph" ∧
    ∃ g, witRespYes.proposed_goal = some g ∧
      witC4.1.proposed_goal = some g ∧
      witC4.2.1.user_goal = some { kind_of_graph := g.kind_of_graph,
                                   description := g.description } := by
  constructor
  · exact (propose_user_goal_approval_guarded {}
      { llm_message := "ok", proposed_goal := none, goal_approved := true }
      witSess).1 rfl rfl
  · exact (propose_user_goal_approval_guarded {} witRespYes witSess).2
      witC4.1 witC4.2.1 witC4.2.2 (by rfl) (by rfl)

/-- C5 counterexample: when the carried-over LoopState already has
goal_approved true, get-user-input does not short-circuit: it invokes the
blocking human-input wait and returns a state different from the carried one
(the user message is appended and the approval flag is reset to False). -/
theorem get_user_input_no_short_circuit :
    (UserIntentLoop.get_user_input
        (some { chat_history := [], proposed_goal := none,
                goal_approved := true })
        "x" { sender := "user", content := "ok" }).2 = true ∧
    (UserIntentLoop.get_user_input
        (some { chat_history := [], proposed_goal := none,
                goal_approved := true })
        "x" { sender := "user", content := "ok" }).1 ≠
      { chat_history := [], proposed_goal := none, goal_approved := true } := by
  exact ⟨rfl, by decide⟩

/-- C5 (amended): get-user-input contains no short-circuit — on every
iteration after the first it invokes the blocking human-input wait regardless
of the carried approval flag; the approved case is unreachable in a run,
because the loop's end_condition terminates the loop on the pass that sets
goal_approved, so every carried state the first step ever consumes has
goal_approved false. -/
theorem get_user_input_always_waits_but_unreachable :
    (∀ (s : UserIntentLoop.LoopState) (inp : String) (msg : Message),
      (UserIntentLoop.get_user_input (some s) inp msg).2 = true) ∧
    (∀ (env : UserIntentLoop.Env) (inp : String) (m : Nat) (s0 : SessionState),
      ∀ t ∈ ((UserIntentLoop.run env inp m s0).2).trace, ∀ s,
        t.consumedCarry = some s → s.goal_approved = false) := by
  constructor
  · intro s inp msg
    rfl
  · intro env inp m s0
    exact UserIntentLoop.runLoop_carry_unapproved env inp m
      { last_iteration_output_content := none, sess := s0, trace := [] }
      (by intro s hs; cases hs) (by simp)

theorem get_user_input_always_waits_but_unreachable_witness :
    (UserIntentLoop.get_user_input (some witS1) "x"
        { sender := "user", content := "ok" }).2 = true ∧
    witS1.goal_approved = false := by
  constructor
  · exact get_user_input_always_waits_but_unreachable.1 witS1 "x"
      { sender := "user", content := "ok" }
  · exact get_user_input_always_waits_but_unreachable.2 witEnvNo "hi" 2
      witSess witT1 (by decide) witS1 (by decide)

/-- C6: the outer schema-proposal loop's end_condition accesses the attribute
approved on the nested schema-critic loop's last output content, but
SchemaCriticLoop.LoopState declares no such field, so for every inner-loop
output — in particular an exhausted one whose critic_feedback is not
APPROVED — the end_condition never evaluates to true: it raises an
AttributeError instead, aborting the outer loop rather than letting it
continue its own iteration as the code's docstring promises. -/
theorem schemaProposal_end_condition_attribute_error
    (s : SchemaCriticLoop.LoopState) :
    SchemaProposalLoop.end_condition s =
      Except.error
        "AttributeError: LoopState object has no attribute approved" ∧
    SchemaProposalLoop.end_condition s ≠ Except.ok true := by
  have h1 : SchemaProposalLoop.end_condition s =
      Except.error
        "AttributeError: LoopState object has no attribute approved" := rfl
  refine ⟨h1, ?_⟩
  rw [h1]
  intro hcon
  cases hcon

/-- C7: on the first iteration (carry-over slot absent), the first step of
each loop synthesizes the initial LoopState from the workflow's raw trigger
input: the returned state has exactly one chat message with sender user and
content equal to the trigger text, a null proposal (respectively empty
entity and relationship type lists), an unapproved decision flag, and the
blocking human-input wait is not invoked. -/
theorem first_iteration_initial_state (content : SchemaProposalLoop.LoopState)
    (inp : String) (msg : Message) :
    UserIntentLoop.get_user_input none inp msg =
      ({ chat_history := [{ sender := "user", content := inp }],
         proposed_goal := none, goal_approved := false }, false) ∧
    SchemaProposalLoop.get_user_input none content inp msg =
      ({ chat_history := [{ sender := "user", content := inp }],
         entity_types := [], relationship_types := [], approved := false },
       false) :=
  ⟨rfl, rfl⟩

/-- C8: for every filename absent from the files artifact map of the shared
session state, peek_file returns a descriptive error string naming the
missing filename instead of raising. -/
theorem peek_file_missing_artifact (sess : SessionState) (filename : String)
    (h : lookupFile sess.files filename = none) :
    SchemaCriticLoop.peek_file sess filename =
      Sum.inl ("ERROR: No file with name " ++ filename ++ " found.") := by
  unfold SchemaCriticLoop.peek_file
  rw [h]

theorem peek_file_missing_artifact_witness :
    lookupFile witSess.files "orders.csv" = none ∧
    SchemaCriticLoop.peek_file witSess "orders.csv" =
      Sum.inl "ERROR: No file with name orders.csv found." := by
  refine ⟨rfl, ?_⟩
  exact peek_file_missing_artifact witSess "orders.csv" rfl

/-- C9: a user-intent loop run that exhausts its iteration budget without any
pass producing goal_approved commits nothing — the session state is returned
unchanged and the user_goal write of line 153 never executed in any
iteration. -/
theorem userIntentLoop_exhausted_no_commit (env : UserIntentLoop.Env)
    (inp : String) (m : Nat) (s0 : SessionState)
    (h : (UserIntentLoop.run env inp m s0).1 =
      UserIntentLoop.RunResult.exhausted) :
    (UserIntentLoop.run env inp m s0).2.sess = s0 ∧
    ∀ t ∈ (UserIntentLoop.run env inp m s0).2.trace, t.wroteGoal = false := by
  have hrun : UserIntentLoop.run env inp m s0 =
      (UserIntentLoop.RunResult.exhausted,
        (UserIntentLoop.run env inp m s0).2) := by
    rw [← h]
  obtain ⟨-, l2, l3⟩ := UserIntentLoop.runLoop_exhausted_spec env inp m
    { last_iteration_output_content := none, sess := s0, trace := [] } _
    (by simp) hrun
  refine ⟨l2, ?_⟩
  intro t ht
  have hw := UserIntentLoop.runLoop_wrote_eq_output env inp m
    { last_iteration_output_content := none, sess := s0, trace := [] }
    (by simp) t ht
  rw [hw]
  exact l3 t ht

theorem userIntentLoop_exhausted_no_commit_witness :
    (UserIntentLoop.run witEnvNo "hi" 2 witSess).2.sess = witSess ∧
    ∀ t ∈ (UserIntentLoop.run witEnvNo "hi" 2 witSess).2.trace,
      t.wroteGoal = false :=
  userIntentLoop_exhausted_no_commit witEnvNo "hi" 2 witSess (by decide)

/-- C10: for every argument list, constructing a SchemaProposalLoop fails
with a TypeError before any loop can run, because its constructor evaluates
SchemaCriticLoop() with no arguments while SchemaCriticLoop requires the
files and user_goal parameters. -/
theorem schemaProposalLoop_init_type_error (files : List CSVFile)
    (user_goal : UserGoal) (max_iterations : Nat) :
    SchemaProposalLoop.init files user_goal max_iterations =
      Except.error "TypeError: __init__ missing required positional arguments"
    := rfl
